import Mathlib

/-!
Verification of the core of a small brainfuck interpreter (`bfi-rs`,
file `src/main.rs`).

The interpreter state (struct `BFI`) holds a tape of 32768 signed 8-bit
cells (`x`), the program text (`c`), the data pointer (`p : usize`), the
program cursor (`pc : isize`), and the bracket-nesting scratch counter
(`l : usize`).  We embed it shallowly: cells are `Int` (the code checks
before mutating, so values always stay in `[-128, 127]` and `Int`
arithmetic agrees with `i8`), the program is a `List Char` (the code
slices the UTF-8 string one byte at a time; for the ASCII programs
considered here byte positions and character positions coincide), the
pointer is `Nat`, the cursor is `Int`, and the counter is `Nat` (the
code only ever decrements it when it is provably positive, so truncated
subtraction agrees with `usize`).  The two scanning loops of the jump
resolver and the main interpreter loop need not terminate on arbitrary
programs, so they take a fuel parameter and return `none` when the fuel
runs out; `none` for every fuel is non-termination of the source loop.
-/

/-- Error taxonomy of the interpreter (`enum BFIError`).  The `io` variant
wraps an underlying I/O error in the source; the payload is irrelevant to
the properties proved here and is dropped. -/
inductive BFIError where
  | io
  | missingClosingBrackets
  | missingOpeningBrackets
  | outOfMemory
  | arithmeticOverflow
deriving DecidableEq, Repr

/-- Interpreter state (`struct BFI`): tape `x`, program `c`, data pointer
`p`, program cursor `pc`, bracket-nesting scratch counter `l`. -/
structure BFI where
  x : List Int
  c : List Char
  p : Nat
  pc : Int
  l : Nat
deriving DecidableEq, Repr

/-- `BFI::new`: tape of 32767 + 1 zero cells, pointer, cursor and counter 0. -/
def mkBFI (c : List Char) : BFI :=
  { x := List.replicate (32767 + 1) 0, c := c, p := 0, pc := 0, l := 0 }

/-- `BFI::current_c`: the one-character slice `c[pc..=pc]`.  In the source
`pc` is cast to `usize` first, so any negative `pc` is far out of range and
yields `None`. -/
def currentChar (c : List Char) (pc : Int) : Option Char :=
  if 0 ≤ pc then c.get? pc.toNat else none

/-- `BFI::check_syntax`: fold over the program counting `[` and `]`, then
compare the two counts. -/
def checkSyntax (c : List Char) : Option BFIError :=
  let counts := c.foldl
    (fun (acc : Nat × Nat) ch =>
      if ch = '[' then (acc.1 + 1, acc.2)
      else if ch = ']' then (acc.1, acc.2 + 1)
      else acc)
    (0, 0)
  if counts.1 > counts.2 then some BFIError.missingClosingBrackets
  else if counts.1 < counts.2 then some BFIError.missingOpeningBrackets
  else none

/-- `BFI::increment_pointer`. -/
def incrementPointer (st : BFI) : BFI × Option BFIError :=
  if st.p + 1 ≥ st.x.length then (st, some BFIError.outOfMemory)
  else ({ st with p := st.p + 1 }, none)

/-- `BFI::decrement_pointer`. -/
def decrementPointer (st : BFI) : BFI × Option BFIError :=
  if st.p ≤ 0 then (st, some BFIError.outOfMemory)
  else ({ st with p := st.p - 1 }, none)

/-- The cell under the data pointer, `self.x[self.p]`.  The pointer is kept
in range by `increment_pointer`/`decrement_pointer`, so the default value
of `getD` is never consulted in a run started from `mkBFI`. -/
def cellAt (st : BFI) : Int := st.x.getD st.p 0

/-- `BFI::increment_byte_at_pointer` (`i8::MAX = 127`). -/
def incrementByteAtPointer (st : BFI) : BFI × Option BFIError :=
  if cellAt st = 127 then (st, some BFIError.arithmeticOverflow)
  else ({ st with x := st.x.set st.p (cellAt st + 1) }, none)

/-- `BFI::decrement_byte_at_pointer` (`i8::MIN = -128`). -/
def decrementByteAtPointer (st : BFI) : BFI × Option BFIError :=
  if cellAt st = -128 then (st, some BFIError.arithmeticOverflow)
  else ({ st with x := st.x.set st.p (cellAt st - 1) }, none)

/-- `buf[0] as i8`: reinterpret a byte (0..255) as a signed 8-bit value. -/
def byteToI8 (b : Nat) : Int :=
  if b < 128 then (b : Int) else (b : Int) - 256

/-- `self.x[self.p] as u8`: reinterpret a signed 8-bit cell as a byte. -/
def i8ToByte (v : Int) : Nat :=
  if 0 ≤ v then v.toNat else (v + 256).toNat

/-- `BFI::output`: write the current cell, cast to `u8`, to the writer.
The writer is modelled as the list of bytes written so far (a `Cursor`);
such a writer never fails, so the error component is always `none`, but
the shape keeps the source's fallibility. -/
def output (st : BFI) (wr : List Nat) : List Nat × Option BFIError :=
  (wr ++ [i8ToByte (cellAt st)], none)

/-- `BFI::input`: `read` one byte into a zero-initialized one-byte buffer
and store `buf[0] as i8` into the current cell unconditionally.  At end of
stream `read` returns 0 bytes read and leaves the buffer zeroed. -/
def input (st : BFI) (rd : List Nat) : BFI × List Nat × Option BFIError :=
  match rd with
  | [] => ({ st with x := st.x.set st.p (byteToI8 0) }, [], none)
  | b :: rest => ({ st with x := st.x.set st.p (byteToI8 b) }, rest, none)

/-- The scanning loop of `BFI::start_jump`:
`while l > 0 || current_c != "]" { match current_c { "[" => l += 1, "]" => l -= 1, _ => () }; pc += 1 }`.
When the body sees `]` the loop condition guarantees `l > 0`, so `Nat`
truncated subtraction agrees with `usize`.  Returns the final `(pc, l)`,
or `none` when the fuel runs out (the source loop would still be running). -/
def startJumpLoop (c : List Char) : Nat → Int → Nat → Option (Int × Nat)
  | 0, _, _ => none
  | fuel + 1, pc, l =>
    if l = 0 ∧ currentChar c pc = some ']' then some (pc, l)
    else
      startJumpLoop c fuel (pc + 1)
        (if currentChar c pc = some '[' then l + 1
         else if currentChar c pc = some ']' then l - 1
         else l)

/-- `BFI::start_jump`: if the current cell is zero, step the cursor once and
run the forward scan; otherwise do nothing. -/
def startJump (fuel : Nat) (st : BFI) : Option BFI :=
  if cellAt st = 0 then
    match startJumpLoop st.c fuel (st.pc + 1) st.l with
    | some (pc, l) => some { st with pc := pc, l := l }
    | none => none
  else some st

/-- The scanning loop of `BFI::end_jump` (mirror image of the forward scan). -/
def endJumpLoop (c : List Char) : Nat → Int → Nat → Option (Int × Nat)
  | 0, _, _ => none
  | fuel + 1, pc, l =>
    if l = 0 ∧ currentChar c pc = some '[' then some (pc, l)
    else
      endJumpLoop c fuel (pc - 1)
        (if currentChar c pc = some ']' then l + 1
         else if currentChar c pc = some '[' then l - 1
         else l)

/-- `BFI::end_jump`: unconditionally step the cursor back once, scan
backward for the matching `[`, then step back once more. -/
def endJump (fuel : Nat) (st : BFI) : Option BFI :=
  match endJumpLoop st.c fuel (st.pc - 1) st.l with
  | some (pc, l) => some { st with pc := pc - 1, l := l }
  | none => none

/-- One dispatch of the `match self.current_c()` in `BFI::interpret`,
without the trailing cursor increment.  Result: new state, reader, writer,
and the error produced by the dispatched operation (`none` on success);
`none` overall when a jump scan ran out of fuel. -/
def dispatch (fuel : Nat) (st : BFI) (rd wr : List Nat) :
    Option (BFI × List Nat × List Nat × Option BFIError) :=
  match currentChar st.c st.pc with
  | some '>' => some ((incrementPointer st).1, rd, wr, (incrementPointer st).2)
  | some '<' => some ((decrementPointer st).1, rd, wr, (decrementPointer st).2)
  | some '+' => some ((incrementByteAtPointer st).1, rd, wr, (incrementByteAtPointer st).2)
  | some '-' => some ((decrementByteAtPointer st).1, rd, wr, (decrementByteAtPointer st).2)
  | some '.' => some (st, rd, (output st wr).1, (output st wr).2)
  | some ',' => some ((input st rd).1, (input st rd).2.1, wr, (input st rd).2.2)
  | some '[' => (startJump fuel st).map (fun st2 => (st2, rd, wr, none))
  | some ']' => (endJump fuel st).map (fun st2 => (st2, rd, wr, none))
  | _ => some (st, rd, wr, none)

/-- The `while (self.pc as usize) < chars_length` loop of `BFI::interpret`.
A negative `pc` casts to a huge `usize`, so the loop runs exactly while
`0 ≤ pc < length`.  On an operation error the loop returns it immediately
(`?` in the source); otherwise the cursor advances by one and the loop
continues. -/
def interpretLoop : Nat → BFI → List Nat → List Nat →
    Option (BFI × List Nat × List Nat × Option BFIError)
  | 0, _, _, _ => none
  | fuel + 1, st, rd, wr =>
    if 0 ≤ st.pc ∧ st.pc < (st.c.length : Int) then
      match dispatch fuel st rd wr with
      | none => none
      | some (st2, rd2, wr2, some e) => some (st2, rd2, wr2, some e)
      | some (st2, rd2, wr2, none) =>
        interpretLoop fuel { st2 with pc := st2.pc + 1 } rd2 wr2
    else some (st, rd, wr, none)

/-- `BFI::interpret`: run the syntax check first; on failure return its
error with the state and both ports untouched; on success reset the cursor
to 0 and run the main loop. -/
def interpret (fuel : Nat) (st : BFI) (rd wr : List Nat) :
    Option (BFI × List Nat × List Nat × Option BFIError) :=
  match checkSyntax st.c with
  | some e => some (st, rd, wr, some e)
  | none => interpretLoop fuel { st with pc := 0 } rd wr

/-- Writer contents and final error of a run started from a fresh
interpreter, ignoring the final state and reader. -/
def runOut (fuel : Nat) (c : List Char) (rd : List Nat) :
    Option (List Nat × Option BFIError) :=
  (interpret fuel (mkBFI c) rd []).map (fun r => (r.2.2.1, r.2.2.2))

/-!
Specification-side notion of bracket matching.  `wsum w c a n` is the sum
of the weights of the `n` program characters starting at position `a`;
with weight `+1` on `[` and `-1` on `]` it is the bracket balance of an
interval, the invariant tracked by the scratch counter `l` of the two
scanning loops.
-/

/-- Weight of a character for the forward scan: `[` opens, `]` closes. -/
def delta (ch : Char) : Int :=
  if ch = '[' then 1 else if ch = ']' then -1 else 0

/-- Weight of a character for the backward scan: `]` opens, `[` closes. -/
def rdelta (ch : Char) : Int :=
  if ch = ']' then 1 else if ch = '[' then -1 else 0

/-- Sum of `w` over the `n` characters of `c` starting at position `a`. -/
def wsum (w : Char → Int) (c : List Char) : Nat → Nat → Int
  | _, 0 => 0
  | a, n + 1 => w (c.getD a ' ') + wsum w c (a + 1) n

/-- Forward bracket balance of the half-open position interval `[a, b)`. -/
def bal (c : List Char) (a b : Nat) : Int := wsum delta c a (b - a)

/-- Backward bracket balance of `[a, b)` (`]` counted `+1`, `[` `-1`). -/
def rbal (c : List Char) (a b : Nat) : Int := wsum rdelta c a (b - a)

/-- `j` is the structurally matching `]` for the `[` at position `i`:
the strict interior `(i, j)` has balance zero and every `]` strictly
inside is still protected by a positive balance (it closes a nested
pair).  This is the specification's depth-counter description of the
forward scan target. -/
def IsMatchingClose (c : List Char) (i j : Nat) : Prop :=
  i < j ∧ j < c.length ∧ c.get? i = some '[' ∧ c.get? j = some ']' ∧
    bal c (i + 1) j = 0 ∧
    ∀ k, k < j → i < k → c.get? k = some ']' → 0 < bal c (i + 1) k

/-- `j` is the structurally matching `[` for the `]` at position `i`,
mirror image of `IsMatchingClose` for the backward scan. -/
def IsMatchingOpen (c : List Char) (j i : Nat) : Prop :=
  j < i ∧ i < c.length ∧ c.get? j = some '[' ∧ c.get? i = some ']' ∧
    rbal c (j + 1) i = 0 ∧
    ∀ k, k < i → j < k → c.get? k = some '[' → 0 < rbal c (k + 1) i

instance (c : List Char) (i j : Nat) : Decidable (IsMatchingClose c i j) := by
  unfold IsMatchingClose
  infer_instance

instance (c : List Char) (j i : Nat) : Decidable (IsMatchingOpen c j i) := by
  unfold IsMatchingOpen
  infer_instance

/-- Every bracket of the program has a structural match: the nesting is
proper, not merely count-balanced. -/
def ProperlyNested (c : List Char) : Prop :=
  (∀ i, i < c.length → c.get? i = some '[' → ∃ j, IsMatchingClose c i j) ∧
  (∀ i, i < c.length → c.get? i = some ']' → ∃ j, IsMatchingOpen c j i)

/-!  Helper lemmas about positions, balances and the scanning loops. -/

lemma currentChar_coe (c : List Char) (k : Nat) :
    currentChar c (k : Int) = c.get? k := by
  simp [currentChar]

lemma getD_eq_of_get? {c : List Char} {k : Nat} {ch : Char}
    (h : c.get? k = some ch) : c.getD k ' ' = ch := by
  have h' : getElem? c k = some ch := by
    rw [← List.get?_eq_getElem?]
    exact h
  simp [List.getD, h']

lemma wsum_succ_right (w : Char → Int) (c : List Char) :
    ∀ n a, wsum w c a (n + 1) = wsum w c a n + w (c.getD (a + n) ' ') := by
  intro n
  induction n with
  | zero => intro a; simp [wsum]
  | succ m ih =>
    intro a
    rw [show m + 1 + 1 = m + 2 from rfl]
    rw [wsum, ih (a + 1), wsum]
    rw [show a + 1 + m = a + (m + 1) by omega]
    ring

lemma bal_self (c : List Char) (a : Nat) : bal c a a = 0 := by
  simp [bal, wsum]

lemma rbal_self (c : List Char) (a : Nat) : rbal c a a = 0 := by
  simp [rbal, wsum]

lemma bal_succ_right (c : List Char) {a b : Nat} {ch : Char}
    (hab : a ≤ b) (hc : c.get? b = some ch) :
    bal c a (b + 1) = bal c a b + delta ch := by
  unfold bal
  rw [show b + 1 - a = (b - a) + 1 by omega, wsum_succ_right,
    show a + (b - a) = b by omega, getD_eq_of_get? hc]

lemma rbal_succ_left (c : List Char) {a b : Nat} {ch : Char}
    (hab : a < b) (hc : c.get? a = some ch) :
    rbal c a b = rdelta ch + rbal c (a + 1) b := by
  unfold rbal
  rw [show b - a = (b - (a + 1)) + 1 by omega, wsum, getD_eq_of_get? hc]

/-- Correctness of the forward scanning loop: starting anywhere inside the
interval with the counter equal to the running balance, the loop stops
exactly at the matching `]` with the counter back at zero. -/
lemma startJumpLoop_spec (c : List Char) {i j : Nat}
    (hjlen : j < c.length) (hj : c.get? j = some ']')
    (hbal : bal c (i + 1) j = 0)
    (hmin : ∀ k, k < j → i < k → c.get? k = some ']' → 0 < bal c (i + 1) k) :
    ∀ (fuel k l : Nat), i + 1 ≤ k → k ≤ j → bal c (i + 1) k = (l : Int) →
      j + 1 - k ≤ fuel → startJumpLoop c fuel (k : Int) l = some ((j : Int), 0) := by
  intro fuel
  induction fuel with
  | zero => intro k l _ hk2 _ hfuel; omega
  | succ f ih =>
    intro k l hk1 hk2 hinv hfuel
    simp only [startJumpLoop]
    by_cases hkj : k = j
    · subst hkj
      have hl : l = 0 := by
        have h0 : ((l : Int)) = 0 := hinv ▸ hbal
        exact_mod_cast h0
      rw [currentChar_coe, hj, hl]
      simp
    · have hklt : k < j := lt_of_le_of_ne hk2 hkj
      have hklen : k < c.length := lt_trans hklt hjlen
      obtain ⟨ch, hch⟩ : ∃ ch, c.get? k = some ch := by
        rw [List.get?_eq_get hklen]
        exact ⟨_, rfl⟩
      have hbalstep : bal c (i + 1) (k + 1) = bal c (i + 1) k + delta ch :=
        bal_succ_right c hk1 hch
      have hcast : ((k : Int)) + 1 = ((k + 1 : Nat) : Int) := by push_cast; ring
      rw [currentChar_coe, hch]
      by_cases h1 : ch = '['
      · subst h1
        rw [if_neg (by simp), if_pos rfl, hcast]
        apply ih (k + 1) (l + 1) (by omega) (by omega) ?_ (by omega)
        rw [hbalstep, hinv]
        simp [delta]
      · by_cases h2 : ch = ']'
        · subst h2
          have hlpos : 0 < bal c (i + 1) k := hmin k hklt (by omega) hch
          have hl0 : l ≠ 0 := by
            intro h
            rw [hinv, h] at hlpos
            simp at hlpos
          rw [if_neg (by simp [hl0]), if_neg (by decide), if_pos rfl, hcast]
          apply ih (k + 1) (l - 1) (by omega) (by omega) ?_ (by omega)
          have hl1 : 1 ≤ l := Nat.one_le_iff_ne_zero.mpr hl0
          rw [hbalstep, hinv]
          simp [delta]
          push_cast [hl1]
          ring
        · rw [if_neg (by simp [h2]), if_neg (by simp [h1]), if_neg (by simp [h2]), hcast]
          apply ih (k + 1) l (by omega) (by omega) ?_ (by omega)
          rw [hbalstep, hinv]
          simp [delta, h1, h2]

/-- Correctness of the backward scanning loop: starting anywhere inside the
interval with the counter equal to the running backward balance, the loop
stops exactly at the matching `[` with the counter back at zero. -/
lemma endJumpLoop_spec (c : List Char) {j i : Nat}
    (hilen : i < c.length) (hj : c.get? j = some '[')
    (hbal : rbal c (j + 1) i = 0)
    (hmin : ∀ k, k < i → j < k → c.get? k = some '[' → 0 < rbal c (k + 1) i) :
    ∀ (fuel k l : Nat), j ≤ k → k < i → rbal c (k + 1) i = (l : Int) →
      k + 1 - j ≤ fuel → endJumpLoop c fuel (k : Int) l = some ((j : Int), 0) := by
  intro fuel
  induction fuel with
  | zero => intro k l hk1 _ _ hfuel; omega
  | succ f ih =>
    intro k l hk1 hk2 hinv hfuel
    simp only [endJumpLoop]
    by_cases hkj : k = j
    · subst hkj
      have hl : l = 0 := by
        have h0 : ((l : Int)) = 0 := hinv ▸ hbal
        exact_mod_cast h0
      rw [currentChar_coe, hj, hl]
      simp
    · have hkgt : j < k := lt_of_le_of_ne hk1 (Ne.symm hkj)
      have hklen : k < c.length := lt_trans hk2 hilen
      obtain ⟨ch, hch⟩ : ∃ ch, c.get? k = some ch := by
        rw [List.get?_eq_get hklen]
        exact ⟨_, rfl⟩
      have hbalstep : rbal c k i = rdelta ch + rbal c (k + 1) i :=
        rbal_succ_left c hk2 hch
      have hcast : ((k : Int)) - 1 = ((k - 1 : Nat) : Int) := by omega
      have hsucc : k - 1 + 1 = k := by omega
      rw [currentChar_coe, hch]
      by_cases h1 : ch = ']'
      · subst h1
        rw [if_neg (by simp), if_pos rfl, hcast]
        apply ih (k - 1) (l + 1) (by omega) (by omega) ?_ (by omega)
        rw [hsucc, hbalstep, hinv]
        simp [rdelta]
        ring
      · by_cases h2 : ch = '['
        · subst h2
          have hlpos : 0 < rbal c (k + 1) i := hmin k hk2 hkgt hch
          have hl0 : l ≠ 0 := by
            intro h
            rw [hinv, h] at hlpos
            simp at hlpos
          have hl1 : 1 ≤ l := Nat.one_le_iff_ne_zero.mpr hl0
          rw [if_neg (by simp [hl0]), if_neg (by decide), if_pos rfl, hcast]
          apply ih (k - 1) (l - 1) (by omega) (by omega) ?_ (by omega)
          rw [hsucc, hbalstep, hinv]
          simp [rdelta]
          push_cast [hl1]
          ring
        · rw [if_neg (by simp [h2]), if_neg (by simp [h1]), if_neg (by simp [h2]), hcast]
          apply ih (k - 1) l (by omega) (by omega) ?_ (by omega)
          rw [hsucc, hbalstep, hinv]
          simp [rdelta, h1, h2]

/-- Shared wrapper of `startJumpLoop_spec` at the level of `start_jump`. -/
lemma startJump_finds_match (st : BFI) (i j fuel : Nat)
    (hpc : st.pc = (i : Int)) (hl : st.l = 0)
    (hm : IsMatchingClose st.c i j) (hfuel : j - i ≤ fuel) :
    (cellAt st ≠ 0 → startJump fuel st = some st) ∧
    (cellAt st = 0 → startJump fuel st = some { st with pc := (j : Int), l := 0 }) := by
  obtain ⟨hij, hjlen, _, hcj, hbal, hmin⟩ := hm
  constructor
  · intro h0
    simp [startJump, h0]
  · intro h0
    have hloop := startJumpLoop_spec st.c hjlen hcj hbal hmin fuel (i + 1) 0
      (le_refl _) (by omega) (by rw [bal_self]; simp) (by omega)
    unfold startJump
    rw [if_pos h0, hpc, show ((i : Int) + 1) = ((i + 1 : Nat) : Int) by push_cast; ring,
      hl, hloop]

/-- Shared wrapper of `endJumpLoop_spec` at the level of `end_jump`. -/
lemma endJump_finds_match (st : BFI) (i j fuel : Nat)
    (hpc : st.pc = (i : Int)) (hl : st.l = 0)
    (hm : IsMatchingOpen st.c j i) (hfuel : i - j ≤ fuel) :
    endJump fuel st = some { st with pc := (j : Int) - 1, l := 0 } ∧
    (endJump fuel st).map (fun st2 => st2.x) = some st.x := by
  obtain ⟨hji, hilen, hcj, _, hbal, hmin⟩ := hm
  have hloop := endJumpLoop_spec st.c hilen hcj hbal hmin fuel (i - 1) 0
    (by omega) (by omega) (by rw [show i - 1 + 1 = i by omega, rbal_self]; simp) (by omega)
  have hmain : endJump fuel st = some { st with pc := (j : Int) - 1, l := 0 } := by
    unfold endJump
    rw [hpc, show ((i : Int) - 1) = ((i - 1 : Nat) : Int) by omega, hl, hloop]
  exact ⟨hmain, by rw [hmain]; rfl⟩

/-- C2: forward jump at a `[` token: with a nonzero current cell the cursor
is unchanged; with a zero current cell the scan lands exactly on the index
of the matching `]`, tracking nesting depth. -/
theorem c2_forward_jump (st : BFI) (i j fuel : Nat)
    (hpc : st.pc = (i : Int)) (hl : st.l = 0)
    (hm : IsMatchingClose st.c i j) (hfuel : j - i ≤ fuel) :
    (cellAt st ≠ 0 → startJump fuel st = some st) ∧
    (cellAt st = 0 → startJump fuel st = some { st with pc := (j : Int), l := 0 }) :=
  startJump_finds_match st i j fuel hpc hl hm hfuel

/-- C3: backward jump at a `]` token runs regardless of the current cell's
value and leaves the cursor one position before the matching `[` (so `-1`
when that `[` is at index 0), never touching the tape. -/
theorem c3_backward_jump (st : BFI) (i j fuel : Nat)
    (hpc : st.pc = (i : Int)) (hl : st.l = 0)
    (hm : IsMatchingOpen st.c j i) (hfuel : i - j ≤ fuel) :
    endJump fuel st = some { st with pc := (j : Int) - 1, l := 0 } ∧
    (endJump fuel st).map (fun st2 => st2.x) = some st.x :=
  endJump_finds_match st i j fuel hpc hl hm hfuel

theorem c2_forward_jump_witness :
    startJump 11 { x := [5], c := "[_[[_][_]_]]".toList, p := 0, pc := 0, l := 0 } =
      some { x := [5], c := "[_[[_][_]_]]".toList, p := 0, pc := 0, l := 0 } ∧
    startJump 11 { x := [0], c := "[_[[_][_]_]]".toList, p := 0, pc := 0, l := 0 } =
      some { x := [0], c := "[_[[_][_]_]]".toList, p := 0, pc := (11 : Int), l := 0 } := by
  constructor
  · exact (c2_forward_jump _ 0 11 11 rfl rfl (by decide) (by norm_num)).1 (by decide)
  · exact (c2_forward_jump _ 0 11 11 rfl rfl (by decide) (by norm_num)).2 (by decide)

theorem c3_backward_jump_witness :
    endJump 2 { x := [7], c := "[_]".toList, p := 0, pc := 2, l := 0 } =
      some { x := [7], c := "[_]".toList, p := 0, pc := (-1 : Int), l := 0 } ∧
    endJump 8 { x := [0], c := "[_[[_][_]_]]".toList, p := 0, pc := 10, l := 0 } =
      some { x := [0], c := "[_[[_][_]_]]".toList, p := 0, pc := (1 : Int), l := 0 } := by
  constructor
  · exact (c3_backward_jump _ 2 0 2 rfl rfl (by decide) (by norm_num)).1
  · exact (c3_backward_jump _ 10 2 8 rfl rfl (by decide) (by norm_num)).1

/-- A backward scan whose cursor has fallen off the start of the program
never stops: at negative positions `current_c` is `None`, so the stop
condition can never hold and the cursor keeps decreasing. -/
lemma endJumpLoop_neg (c : List Char) :
    ∀ (fuel : Nat) (pc : Int) (l : Nat), pc < 0 → endJumpLoop c fuel pc l = none := by
  intro fuel
  induction fuel with
  | zero => intro pc l _; rfl
  | succ f ih =>
    intro pc l hpc
    have hcur : currentChar c pc = none := by
      simp [currentChar]
      omega
    simp only [endJumpLoop, hcur]
    rw [if_neg (by simp), if_neg (by simp), if_neg (by simp)]
    exact ih (pc - 1) l (by omega)

/-- One unfolding of the main loop while the cursor is on a token. -/
lemma interpretLoop_succ (f : Nat) (st : BFI) (rd wr : List Nat)
    (h : 0 ≤ st.pc ∧ st.pc < (st.c.length : Int)) :
    interpretLoop (f + 1) st rd wr =
      match dispatch f st rd wr with
      | none => none
      | some (st2, rd2, wr2, some e) => some (st2, rd2, wr2, some e)
      | some (st2, rd2, wr2, none) =>
        interpretLoop f { st2 with pc := st2.pc + 1 } rd2 wr2 := by
  simp only [interpretLoop, if_pos h]

/-- C1, counterexample: the program `][` has equal bracket counts, so the
Syntax Checker accepts it, yet interpreting it diverges: the backward scan
of its very first token runs past the start of the program and never stops
(no amount of fuel makes the run return). -/
theorem c1_checker_cex :
    checkSyntax [']', '['] = none ∧
    ∀ fuel, interpret fuel (mkBFI [']', '[']) [] [] = none := by
  refine ⟨by decide, fun fuel => ?_⟩
  rcases fuel with _ | f
  · rfl
  · have he : endJumpLoop [']', '['] f (-1) 0 = none :=
      endJumpLoop_neg _ f _ _ (by norm_num)
    have hd : dispatch f (mkBFI [']', '[']) [] [] = none := by
      show (endJump f (mkBFI [']', '['])).map _ = none
      have hend : endJump f (mkBFI [']', '[']) = none := by
        simp only [endJump, mkBFI]
        rw [show ((0 : Int) - 1) = (-1 : Int) by norm_num, he]
      rw [hend]
      rfl
    have hstep := interpretLoop_succ f (mkBFI [']', '[']) [] [] (by decide)
    show interpretLoop (f + 1) (mkBFI [']', '[']) [] [] = none
    rw [hstep, hd]

/-- C1, amended: for programs whose brackets are properly nested (not
merely count-balanced), every jump-resolution scan started at a bracket
with the nesting counter clear terminates with the cursor inside the
program's bounds; a backward scan may end at the `-1` sentinel. -/
theorem c1_scan_in_bounds (st : BFI) (i : Nat)
    (hpn : ProperlyNested st.c) (hpc : st.pc = (i : Int)) (hl : st.l = 0)
    (hi : i < st.c.length) :
    (currentChar st.c st.pc = some '[' →
      ∃ fuel st2, startJump fuel st = some st2 ∧
        0 ≤ st2.pc ∧ st2.pc < (st.c.length : Int)) ∧
    (currentChar st.c st.pc = some ']' →
      ∃ fuel st2, endJump fuel st = some st2 ∧
        -1 ≤ st2.pc ∧ st2.pc < (st.c.length : Int)) := by
  constructor
  · intro hcur
    have hget : st.c.get? i = some '[' := by
      rw [hpc, currentChar_coe] at hcur
      exact hcur
    by_cases h0 : cellAt st = 0
    · obtain ⟨j, hm⟩ := hpn.1 i hi hget
      have hjlen : j < st.c.length := hm.2.1
      refine ⟨j - i, { st with pc := (j : Int), l := 0 },
        (startJump_finds_match st i j (j - i) hpc hl hm (le_refl _)).2 h0, ?_, ?_⟩
      · show (0 : Int) ≤ (j : Int)
        omega
      · show (j : Int) < (st.c.length : Int)
        omega
    · refine ⟨0, st, by simp [startJump, h0], ?_, ?_⟩
      · rw [hpc]
        omega
      · rw [hpc]
        omega
  · intro hcur
    have hget : st.c.get? i = some ']' := by
      rw [hpc, currentChar_coe] at hcur
      exact hcur
    obtain ⟨j, hm⟩ := hpn.2 i hi hget
    have hji : j < i := hm.1
    refine ⟨i - j, { st with pc := (j : Int) - 1, l := 0 },
      (endJump_finds_match st i j (i - j) hpc hl hm (le_refl _)).1, ?_, ?_⟩
    · show (-1 : Int) ≤ (j : Int) - 1
      omega
    · show (j : Int) - 1 < (st.c.length : Int)
      omega

theorem c1_scan_in_bounds_witness :
    (∃ fuel st2,
      startJump fuel { x := [0], c := ['[', ']'], p := 0, pc := 0, l := 0 } = some st2 ∧
        0 ≤ st2.pc ∧ st2.pc < ((['[', ']'] : List Char).length : Int)) ∧
    (∃ fuel st2,
      endJump fuel { x := [0], c := ['[', ']'], p := 0, pc := 1, l := 0 } = some st2 ∧
        -1 ≤ st2.pc ∧ st2.pc < ((['[', ']'] : List Char).length : Int)) := by
  have hpn : ProperlyNested ['[', ']'] := by
    constructor
    · intro i hi hc
      simp only [List.length_cons, List.length_nil] at hi
      interval_cases i
      · exact ⟨1, by decide⟩
      · exact absurd hc (by decide)
    · intro i hi hc
      simp only [List.length_cons, List.length_nil] at hi
      interval_cases i
      · exact absurd hc (by decide)
      · exact ⟨0, by decide⟩
  constructor
  · exact (c1_scan_in_bounds ⟨[0], ['[', ']'], 0, 0, 0⟩ 0 hpn rfl rfl (by decide)).1 (by decide)
  · exact (c1_scan_in_bounds ⟨[0], ['[', ']'], 0, 1, 0⟩ 1 hpn rfl rfl (by decide)).2 (by decide)

/-- The counting fold of `check_syntax` computes the number of `[` and `]`
characters of the program, on top of any starting accumulator. -/
lemma checkSyntax_foldl (c : List Char) : ∀ a b : Nat,
    c.foldl (fun (acc : Nat × Nat) ch =>
      if ch = '[' then (acc.1 + 1, acc.2)
      else if ch = ']' then (acc.1, acc.2 + 1)
      else acc) (a, b) = (a + c.count '[', b + c.count ']') := by
  induction c with
  | nil => intro a b; simp
  | cons ch t ih =>
    intro a b
    simp only [List.foldl_cons]
    by_cases h1 : ch = '['
    · subst h1
      rw [if_pos rfl, ih (a + 1) b]
      simp [List.count_cons]
      omega
    · by_cases h2 : ch = ']'
      · subst h2
        rw [if_neg (by decide), if_pos rfl, ih a (b + 1)]
        simp [List.count_cons]
        omega
      · rw [if_neg h1, if_neg h2, ih a b]
        simp [List.count_cons, h1, h2]

/-- C4: the Syntax Checker reports `MissingClosingBrackets` exactly when
`[` outnumbers `]`, `MissingOpeningBrackets` exactly when `]` outnumbers
`[`, and succeeds exactly when the counts are equal, regardless of order:
`]][[` and `][` both pass. -/
theorem c4_check_syntax (c : List Char) :
    (checkSyntax c = some BFIError.missingClosingBrackets ↔ c.count ']' < c.count '[') ∧
    (checkSyntax c = some BFIError.missingOpeningBrackets ↔ c.count '[' < c.count ']') ∧
    (checkSyntax c = none ↔ c.count '[' = c.count ']') ∧
    checkSyntax (']' :: ']' :: '[' :: '[' :: []) = none ∧
    checkSyntax (']' :: '[' :: []) = none := by
  have hc : checkSyntax c =
      (if c.count ']' < c.count '[' then some BFIError.missingClosingBrackets
       else if c.count '[' < c.count ']' then some BFIError.missingOpeningBrackets
       else none) := by
    simp only [checkSyntax, checkSyntax_foldl c 0 0, Nat.zero_add]
  rcases Nat.lt_trichotomy (c.count '[') (c.count ']') with h | h | h
  · have hval : checkSyntax c = some BFIError.missingOpeningBrackets := by
      rw [hc, if_neg (by omega), if_pos h]
    refine ⟨⟨?_, ?_⟩, ⟨?_, ?_⟩, ⟨?_, ?_⟩, by decide, by decide⟩
    · intro hh; rw [hval] at hh; exact absurd hh (by decide)
    · intro hh; exact absurd hh (by omega)
    · intro _; exact h
    · intro _; exact hval
    · intro hh; rw [hval] at hh; exact absurd hh (by decide)
    · intro hh; exact absurd hh (by omega)
  · have hval : checkSyntax c = none := by
      rw [hc, if_neg (by omega), if_neg (by omega)]
    refine ⟨⟨?_, ?_⟩, ⟨?_, ?_⟩, ⟨?_, ?_⟩, by decide, by decide⟩
    · intro hh; rw [hval] at hh; exact absurd hh (by decide)
    · intro hh; exact absurd hh (by omega)
    · intro hh; rw [hval] at hh; exact absurd hh (by decide)
    · intro hh; exact absurd hh (by omega)
    · intro _; exact h
    · intro _; exact hval
  · have hval : checkSyntax c = some BFIError.missingClosingBrackets := by
      rw [hc, if_pos h]
    refine ⟨⟨?_, ?_⟩, ⟨?_, ?_⟩, ⟨?_, ?_⟩, by decide, by decide⟩
    · intro _; exact h
    · intro _; exact hval
    · intro hh; rw [hval] at hh; exact absurd hh (by decide)
    · intro hh; exact absurd hh (by omega)
    · intro hh; rw [hval] at hh; exact absurd hh (by decide)
    · intro hh; exact absurd hh (by omega)

/-- C5: `move_right` fails with `OutOfMemory` leaving the pointer unchanged
exactly when `pointer + 1` would reach or exceed the tape length, and
otherwise increments the pointer; `move_left` fails exactly at pointer 0
and otherwise decrements; the pointer stays within `[0, tape length)`, and
a fresh tape has length 32768. -/
theorem c5_pointer_bounds (st : BFI) (c : List Char) :
    (incrementPointer st = (st, some BFIError.outOfMemory) ↔ st.x.length ≤ st.p + 1) ∧
    (st.p + 1 < st.x.length → incrementPointer st = ({ st with p := st.p + 1 }, none)) ∧
    (decrementPointer st = (st, some BFIError.outOfMemory) ↔ st.p = 0) ∧
    (0 < st.p → decrementPointer st = ({ st with p := st.p - 1 }, none)) ∧
    (st.p < st.x.length → (incrementPointer st).1.p < st.x.length) ∧
    (decrementPointer st).1.p ≤ st.p ∧
    (mkBFI c).x.length = 32768 := by
  refine ⟨?_, ?_, ?_, ?_, ?_, ?_, by simp only [mkBFI, List.length_replicate]⟩
  · unfold incrementPointer
    by_cases h : st.p + 1 ≥ st.x.length
    · rw [if_pos h]
      simp [h]
    · rw [if_neg h]
      simp [Prod.ext_iff]
      omega
  · intro h
    unfold incrementPointer
    rw [if_neg (by omega)]
  · unfold decrementPointer
    by_cases h : st.p ≤ 0
    · rw [if_pos h]
      simp
      omega
    · rw [if_neg h]
      simp [Prod.ext_iff]
      omega
  · intro h
    unfold decrementPointer
    rw [if_neg (by omega)]
  · intro h
    unfold incrementPointer
    by_cases hb : st.p + 1 ≥ st.x.length
    · rw [if_pos hb]
      exact h
    · rw [if_neg hb]
      simp
      omega
  · unfold decrementPointer
    by_cases h : st.p ≤ 0
    · rw [if_pos h]
    · rw [if_neg h]
      simp

theorem c5_pointer_bounds_witness :
    incrementPointer { x := [0, 0], c := [], p := 1, pc := 0, l := 0 } =
      ({ x := [0, 0], c := [], p := 1, pc := 0, l := 0 }, some BFIError.outOfMemory) ∧
    incrementPointer { x := [0, 0], c := [], p := 0, pc := 0, l := 0 } =
      ({ x := [0, 0], c := [], p := 1, pc := 0, l := 0 }, none) ∧
    decrementPointer { x := [0, 0], c := [], p := 0, pc := 0, l := 0 } =
      ({ x := [0, 0], c := [], p := 0, pc := 0, l := 0 }, some BFIError.outOfMemory) ∧
    decrementPointer { x := [0, 0], c := [], p := 1, pc := 0, l := 0 } =
      ({ x := [0, 0], c := [], p := 0, pc := 0, l := 0 }, none) := by
  refine ⟨?_, ?_, ?_, ?_⟩
  · exact (c5_pointer_bounds _ []).1.mpr (by decide)
  · exact (c5_pointer_bounds _ []).2.1 (by decide)
  · exact (c5_pointer_bounds _ []).2.2.1.mpr (by decide)
  · exact (c5_pointer_bounds _ []).2.2.2.1 (by decide)

set_option maxRecDepth 4000 in
/-- C6: `increment_cell` fails with `ArithmeticOverflow` leaving the cell
unchanged exactly when the cell is 127, otherwise adds 1; `decrement_cell`
fails exactly at -128, otherwise subtracts 1; from a zero cell the first
127 increments succeed ending at 127 and the 128th fails leaving 127 (and
symmetrically 128 decrements reach -128, the 129th fails). -/
theorem c6_cell_overflow (st : BFI) :
    (incrementByteAtPointer st = (st, some BFIError.arithmeticOverflow) ↔ cellAt st = 127) ∧
    (cellAt st ≠ 127 → incrementByteAtPointer st =
      ({ st with x := st.x.set st.p (cellAt st + 1) }, none)) ∧
    (decrementByteAtPointer st = (st, some BFIError.arithmeticOverflow) ↔ cellAt st = -128) ∧
    (cellAt st ≠ -128 → decrementByteAtPointer st =
      ({ st with x := st.x.set st.p (cellAt st - 1) }, none)) ∧
    ((fun s => (incrementByteAtPointer s).1)^[127] ⟨[0], [], 0, 0, 0⟩).x = [127] ∧
    incrementByteAtPointer ((fun s => (incrementByteAtPointer s).1)^[127] ⟨[0], [], 0, 0, 0⟩) =
      ((fun s => (incrementByteAtPointer s).1)^[127] ⟨[0], [], 0, 0, 0⟩,
        some BFIError.arithmeticOverflow) ∧
    ((fun s => (decrementByteAtPointer s).1)^[128] ⟨[0], [], 0, 0, 0⟩).x = [-128] ∧
    decrementByteAtPointer ((fun s => (decrementByteAtPointer s).1)^[128] ⟨[0], [], 0, 0, 0⟩) =
      ((fun s => (decrementByteAtPointer s).1)^[128] ⟨[0], [], 0, 0, 0⟩,
        some BFIError.arithmeticOverflow) := by
  refine ⟨?_, ?_, ?_, ?_, by decide, by decide, by decide, by decide⟩
  · unfold incrementByteAtPointer
    by_cases h : cellAt st = 127
    · rw [if_pos h]
      simp [h]
    · rw [if_neg h]
      simp [Prod.ext_iff, h]
  · intro h
    unfold incrementByteAtPointer
    rw [if_neg h]
  · unfold decrementByteAtPointer
    by_cases h : cellAt st = -128
    · rw [if_pos h]
      simp [h]
    · rw [if_neg h]
      simp [Prod.ext_iff, h]
  · intro h
    unfold decrementByteAtPointer
    rw [if_neg h]

theorem c6_cell_overflow_witness :
    incrementByteAtPointer { x := [127], c := [], p := 0, pc := 0, l := 0 } =
      ({ x := [127], c := [], p := 0, pc := 0, l := 0 }, some BFIError.arithmeticOverflow) ∧
    incrementByteAtPointer { x := [5], c := [], p := 0, pc := 0, l := 0 } =
      ({ x := [6], c := [], p := 0, pc := 0, l := 0 }, none) ∧
    decrementByteAtPointer { x := [-128], c := [], p := 0, pc := 0, l := 0 } =
      ({ x := [-128], c := [], p := 0, pc := 0, l := 0 }, some BFIError.arithmeticOverflow) ∧
    decrementByteAtPointer { x := [5], c := [], p := 0, pc := 0, l := 0 } =
      ({ x := [4], c := [], p := 0, pc := 0, l := 0 }, none) := by
  refine ⟨?_, ?_, ?_, ?_⟩
  · exact (c6_cell_overflow _).1.mpr (by decide)
  · exact (c6_cell_overflow _).2.1 (by decide)
  · exact (c6_cell_overflow _).2.2.1.mpr (by decide)
  · exact (c6_cell_overflow _).2.2.2.1 (by decide)

/-- One successful step of the main loop: dispatch, then advance by one. -/
lemma interpretLoop_go (f : Nat) (st st2 st3 : BFI) (rd wr rd2 wr2 : List Nat)
    (h1 : 0 ≤ st.pc ∧ st.pc < (st.c.length : Int))
    (h2 : dispatch f st rd wr = some (st2, rd2, wr2, none))
    (h3 : st3 = { st2 with pc := st2.pc + 1 }) :
    interpretLoop (f + 1) st rd wr = interpretLoop f st3 rd2 wr2 := by
  rw [interpretLoop_succ f st rd wr h1, h2, h3]

/-- The main loop stops successfully once the cursor leaves the program. -/
lemma interpretLoop_done (f : Nat) (st : BFI) (rd wr : List Nat)
    (h : ¬(0 ≤ st.pc ∧ st.pc < (st.c.length : Int))) :
    interpretLoop (f + 1) st rd wr = some (st, rd, wr, none) := by
  simp only [interpretLoop, if_neg h]

/-- Dispatch of a `>` token with room on the tape; stated separately so
that concrete runs can rewrite the tape length (`List.length_set`) instead
of evaluating the length of a 32768-cell tape. -/
lemma dispatch_gt (f : Nat) (st st2 : BFI) (rd wr : List Nat)
    (hc : currentChar st.c st.pc = some '>')
    (hlen : st.p + 1 < st.x.length)
    (hst2 : st2 = { st with p := st.p + 1 }) :
    dispatch f st rd wr = some (st2, rd, wr, none) := by
  have hip : incrementPointer st = (st2, none) := by
    unfold incrementPointer
    rw [if_neg (by omega), hst2]
  simp only [dispatch, hc, hip]

/-- C7: a run consults the Syntax Checker first and, on its failure,
returns that error with state, reader and writer untouched; during
execution the first operation error is returned as the run's result with
nothing further executed, and after every successful dispatch the cursor
advances by exactly one. -/
theorem c7_run_control (c : List Char) (fuel : Nat) (rd wr rd2 wr2 : List Nat)
    (st st2 : BFI) (e : BFIError) :
    (checkSyntax c = some e →
      interpret fuel (mkBFI c) rd wr = some (mkBFI c, rd, wr, some e)) ∧
    (0 ≤ st.pc → st.pc < (st.c.length : Int) →
      dispatch fuel st rd wr = some (st2, rd2, wr2, some e) →
      interpretLoop (fuel + 1) st rd wr = some (st2, rd2, wr2, some e)) ∧
    (0 ≤ st.pc → st.pc < (st.c.length : Int) →
      dispatch fuel st rd wr = some (st2, rd2, wr2, none) →
      interpretLoop (fuel + 1) st rd wr =
        interpretLoop fuel { st2 with pc := st2.pc + 1 } rd2 wr2) := by
  refine ⟨?_, ?_, ?_⟩
  · intro h
    unfold interpret
    rw [show (mkBFI c).c = c from rfl, h]
  · intro h1 h2 h3
    rw [interpretLoop_succ fuel st rd wr ⟨h1, h2⟩, h3]
  · intro h1 h2 h3
    rw [interpretLoop_succ fuel st rd wr ⟨h1, h2⟩, h3]

theorem c7_run_control_witness :
    interpret 5 (mkBFI ['[']) [] [] =
      some (mkBFI ['['], [], [], some BFIError.missingClosingBrackets) ∧
    interpretLoop 1 ⟨[0], ['<'], 0, 0, 0⟩ [] [] =
      some (⟨[0], ['<'], 0, 0, 0⟩, [], [], some BFIError.outOfMemory) ∧
    interpretLoop 1 ⟨[0], ['+'], 0, 0, 0⟩ [] [] =
      interpretLoop 0 ⟨[1], ['+'], 0, 1, 0⟩ [] [] := by
  refine ⟨?_, ?_, ?_⟩
  · exact (c7_run_control ['['] 5 [] [] [] [] (mkBFI ['[']) (mkBFI ['['])
      BFIError.missingClosingBrackets).1 (by decide)
  · exact (c7_run_control ['<'] 0 [] [] [] [] ⟨[0], ['<'], 0, 0, 0⟩ ⟨[0], ['<'], 0, 0, 0⟩
      BFIError.outOfMemory).2.1 (by decide) (by decide) (by decide)
  · exact (c7_run_control ['+'] 0 [] [] [] [] ⟨[0], ['+'], 0, 0, 0⟩ ⟨[1], ['+'], 0, 0, 0⟩
      BFIError.io).2.2 (by decide) (by decide) (by decide)

/-- C8: the program `,.` with input byte 65 writes exactly the byte 65;
input reinterprets the byte as a signed cell (200 becomes -56) and output
reinterprets the cell as an unsigned byte (-56 becomes 200 again). -/
theorem c8_io_round_trip :
    runOut 10 (',' :: '.' :: []) [65] = some ([65], none) ∧
    byteToI8 65 = 65 ∧ i8ToByte 65 = 65 ∧
    byteToI8 200 = -56 ∧ i8ToByte (-56) = 200 ∧
    (interpret 10 (mkBFI (',' :: [])) [200] []).map (fun r => cellAt r.1) = some (-56) ∧
    runOut 10 (',' :: '.' :: []) [200] = some ([200], none) :=
  ⟨rfl, rfl, rfl, rfl, rfl, rfl, rfl⟩

/-- C10: when the input port is exhausted, `input` still succeeds and
stores 0 in the current cell (the zeroed one-byte buffer is stored
unconditionally). -/
theorem c10_input_eof (st : BFI) :
    input st [] = ({ st with x := st.x.set st.p 0 }, [], none) := by
  unfold input
  simp [byteToI8]

/-- C9: end-to-end, the adder program `,>,<>[-<+>]<.` on input bytes 1, 2
runs to completion and writes exactly the byte 3. -/
theorem c9_adder_end_to_end :
    runOut 100 [',', '>', ',', '<', '>', '[', '-', '<', '+', '>', ']', '<', '.'] [1, 2] = some ([3], none) := by
  have h0 : interpret 100 (mkBFI [',', '>', ',', '<', '>', '[', '-', '<', '+', '>', ']', '<', '.']) [1, 2] [] =
      interpretLoop 100 (⟨List.replicate (32767 + 1) (0 : Int), [',', '>', ',', '<', '>', '[', '-', '<', '+', '>', ']', '<', '.'], 0, 0, 0⟩ : BFI) [1, 2] [] := by
    unfold interpret
    rw [show checkSyntax (mkBFI [',', '>', ',', '<', '>', '[', '-', '<', '+', '>', ']', '<', '.']).c = none from by decide]
    rfl
  have h1 : interpretLoop 100 (⟨List.replicate (32767 + 1) (0 : Int), [',', '>', ',', '<', '>', '[', '-', '<', '+', '>', ']', '<', '.'], 0, 0, 0⟩ : BFI) [1, 2] [] =
      interpretLoop 99 (⟨(List.replicate (32767 + 1) (0 : Int)).set 0 1, [',', '>', ',', '<', '>', '[', '-', '<', '+', '>', ']', '<', '.'], 0, 1, 0⟩ : BFI) [2] [] :=
    interpretLoop_go 99 (⟨List.replicate (32767 + 1) (0 : Int), [',', '>', ',', '<', '>', '[', '-', '<', '+', '>', ']', '<', '.'], 0, 0, 0⟩ : BFI) (⟨(List.replicate (32767 + 1) (0 : Int)).set 0 1, [',', '>', ',', '<', '>', '[', '-', '<', '+', '>', ']', '<', '.'], 0, 0, 0⟩ : BFI) (⟨(List.replicate (32767 + 1) (0 : Int)).set 0 1, [',', '>', ',', '<', '>', '[', '-', '<', '+', '>', ']', '<', '.'], 0, 1, 0⟩ : BFI) [1, 2] [] [2] [] (by decide) rfl rfl
  have h2 : interpretLoop 99 (⟨(List.replicate (32767 + 1) (0 : Int)).set 0 1, [',', '>', ',', '<', '>', '[', '-', '<', '+', '>', ']', '<', '.'], 0, 1, 0⟩ : BFI) [2] [] =
      interpretLoop 98 (⟨(List.replicate (32767 + 1) (0 : Int)).set 0 1, [',', '>', ',', '<', '>', '[', '-', '<', '+', '>', ']', '<', '.'], 1, 2, 0⟩ : BFI) [2] [] :=
    interpretLoop_go 98 (⟨(List.replicate (32767 + 1) (0 : Int)).set 0 1, [',', '>', ',', '<', '>', '[', '-', '<', '+', '>', ']', '<', '.'], 0, 1, 0⟩ : BFI) (⟨(List.replicate (32767 + 1) (0 : Int)).set 0 1, [',', '>', ',', '<', '>', '[', '-', '<', '+', '>', ']', '<', '.'], 1, 1, 0⟩ : BFI) (⟨(List.replicate (32767 + 1) (0 : Int)).set 0 1, [',', '>', ',', '<', '>', '[', '-', '<', '+', '>', ']', '<', '.'], 1, 2, 0⟩ : BFI) [2] [] [2] [] (by decide) (dispatch_gt 98 (⟨(List.replicate (32767 + 1) (0 : Int)).set 0 1, [',', '>', ',', '<', '>', '[', '-', '<', '+', '>', ']', '<', '.'], 0, 1, 0⟩ : BFI) (⟨(List.replicate (32767 + 1) (0 : Int)).set 0 1, [',', '>', ',', '<', '>', '[', '-', '<', '+', '>', ']', '<', '.'], 1, 1, 0⟩ : BFI) [2] [] rfl (by simp only [List.length_set, List.length_replicate]; omega) rfl) rfl
  have h3 : interpretLoop 98 (⟨(List.replicate (32767 + 1) (0 : Int)).set 0 1, [',', '>', ',', '<', '>', '[', '-', '<', '+', '>', ']', '<', '.'], 1, 2, 0⟩ : BFI) [2] [] =
      interpretLoop 97 (⟨((List.replicate (32767 + 1) (0 : Int)).set 0 1).set 1 2, [',', '>', ',', '<', '>', '[', '-', '<', '+', '>', ']', '<', '.'], 1, 3, 0⟩ : BFI) [] [] :=
    interpretLoop_go 97 (⟨(List.replicate (32767 + 1) (0 : Int)).set 0 1, [',', '>', ',', '<', '>', '[', '-', '<', '+', '>', ']', '<', '.'], 1, 2, 0⟩ : BFI) (⟨((List.replicate (32767 + 1) (0 : Int)).set 0 1).set 1 2, [',', '>', ',', '<', '>', '[', '-', '<', '+', '>', ']', '<', '.'], 1, 2, 0⟩ : BFI) (⟨((List.replicate (32767 + 1) (0 : Int)).set 0 1).set 1 2, [',', '>', ',', '<', '>', '[', '-', '<', '+', '>', ']', '<', '.'], 1, 3, 0⟩ : BFI) [2] [] [] [] (by decide) rfl rfl
  have h4 : interpretLoop 97 (⟨((List.replicate (32767 + 1) (0 : Int)).set 0 1).set 1 2, [',', '>', ',', '<', '>', '[', '-', '<', '+', '>', ']', '<', '.'], 1, 3, 0⟩ : BFI) [] [] =
      interpretLoop 96 (⟨((List.replicate (32767 + 1) (0 : Int)).set 0 1).set 1 2, [',', '>', ',', '<', '>', '[', '-', '<', '+', '>', ']', '<', '.'], 0, 4, 0⟩ : BFI) [] [] :=
    interpretLoop_go 96 (⟨((List.replicate (32767 + 1) (0 : Int)).set 0 1).set 1 2, [',', '>', ',', '<', '>', '[', '-', '<', '+', '>', ']', '<', '.'], 1, 3, 0⟩ : BFI) (⟨((List.replicate (32767 + 1) (0 : Int)).set 0 1).set 1 2, [',', '>', ',', '<', '>', '[', '-', '<', '+', '>', ']', '<', '.'], 0, 3, 0⟩ : BFI) (⟨((List.replicate (32767 + 1) (0 : Int)).set 0 1).set 1 2, [',', '>', ',', '<', '>', '[', '-', '<', '+', '>', ']', '<', '.'], 0, 4, 0⟩ : BFI) [] [] [] [] (by decide) rfl rfl
  have h5 : interpretLoop 96 (⟨((List.replicate (32767 + 1) (0 : Int)).set 0 1).set 1 2, [',', '>', ',', '<', '>', '[', '-', '<', '+', '>', ']', '<', '.'], 0, 4, 0⟩ : BFI) [] [] =
      interpretLoop 95 (⟨((List.replicate (32767 + 1) (0 : Int)).set 0 1).set 1 2, [',', '>', ',', '<', '>', '[', '-', '<', '+', '>', ']', '<', '.'], 1, 5, 0⟩ : BFI) [] [] :=
    interpretLoop_go 95 (⟨((List.replicate (32767 + 1) (0 : Int)).set 0 1).set 1 2, [',', '>', ',', '<', '>', '[', '-', '<', '+', '>', ']', '<', '.'], 0, 4, 0⟩ : BFI) (⟨((List.replicate (32767 + 1) (0 : Int)).set 0 1).set 1 2, [',', '>', ',', '<', '>', '[', '-', '<', '+', '>', ']', '<', '.'], 1, 4, 0⟩ : BFI) (⟨((List.replicate (32767 + 1) (0 : Int)).set 0 1).set 1 2, [',', '>', ',', '<', '>', '[', '-', '<', '+', '>', ']', '<', '.'], 1, 5, 0⟩ : BFI) [] [] [] [] (by decide) (dispatch_gt 95 (⟨((List.replicate (32767 + 1) (0 : Int)).set 0 1).set 1 2, [',', '>', ',', '<', '>', '[', '-', '<', '+', '>', ']', '<', '.'], 0, 4, 0⟩ : BFI) (⟨((List.replicate (32767 + 1) (0 : Int)).set 0 1).set 1 2, [',', '>', ',', '<', '>', '[', '-', '<', '+', '>', ']', '<', '.'], 1, 4, 0⟩ : BFI) [] [] rfl (by simp only [List.length_set, List.length_replicate]; omega) rfl) rfl
  have h6 : interpretLoop 95 (⟨((List.replicate (32767 + 1) (0 : Int)).set 0 1).set 1 2, [',', '>', ',', '<', '>', '[', '-', '<', '+', '>', ']', '<', '.'], 1, 5, 0⟩ : BFI) [] [] =
      interpretLoop 94 (⟨((List.replicate (32767 + 1) (0 : Int)).set 0 1).set 1 2, [',', '>', ',', '<', '>', '[', '-', '<', '+', '>', ']', '<', '.'], 1, 6, 0⟩ : BFI) [] [] :=
    interpretLoop_go 94 (⟨((List.replicate (32767 + 1) (0 : Int)).set 0 1).set 1 2, [',', '>', ',', '<', '>', '[', '-', '<', '+', '>', ']', '<', '.'], 1, 5, 0⟩ : BFI) (⟨((List.replicate (32767 + 1) (0 : Int)).set 0 1).set 1 2, [',', '>', ',', '<', '>', '[', '-', '<', '+', '>', ']', '<', '.'], 1, 5, 0⟩ : BFI) (⟨((List.replicate (32767 + 1) (0 : Int)).set 0 1).set 1 2, [',', '>', ',', '<', '>', '[', '-', '<', '+', '>', ']', '<', '.'], 1, 6, 0⟩ : BFI) [] [] [] [] (by decide) rfl rfl
  have h7 : interpretLoop 94 (⟨((List.replicate (32767 + 1) (0 : Int)).set 0 1).set 1 2, [',', '>', ',', '<', '>', '[', '-', '<', '+', '>', ']', '<', '.'], 1, 6, 0⟩ : BFI) [] [] =
      interpretLoop 93 (⟨(((List.replicate (32767 + 1) (0 : Int)).set 0 1).set 1 2).set 1 1, [',', '>', ',', '<', '>', '[', '-', '<', '+', '>', ']', '<', '.'], 1, 7, 0⟩ : BFI) [] [] :=
    interpretLoop_go 93 (⟨((List.replicate (32767 + 1) (0 : Int)).set 0 1).set 1 2, [',', '>', ',', '<', '>', '[', '-', '<', '+', '>', ']', '<', '.'], 1, 6, 0⟩ : BFI) (⟨(((List.replicate (32767 + 1) (0 : Int)).set 0 1).set 1 2).set 1 1, [',', '>', ',', '<', '>', '[', '-', '<', '+', '>', ']', '<', '.'], 1, 6, 0⟩ : BFI) (⟨(((List.replicate (32767 + 1) (0 : Int)).set 0 1).set 1 2).set 1 1, [',', '>', ',', '<', '>', '[', '-', '<', '+', '>', ']', '<', '.'], 1, 7, 0⟩ : BFI) [] [] [] [] (by decide) rfl rfl
  have h8 : interpretLoop 93 (⟨(((List.replicate (32767 + 1) (0 : Int)).set 0 1).set 1 2).set 1 1, [',', '>', ',', '<', '>', '[', '-', '<', '+', '>', ']', '<', '.'], 1, 7, 0⟩ : BFI) [] [] =
      interpretLoop 92 (⟨(((List.replicate (32767 + 1) (0 : Int)).set 0 1).set 1 2).set 1 1, [',', '>', ',', '<', '>', '[', '-', '<', '+', '>', ']', '<', '.'], 0, 8, 0⟩ : BFI) [] [] :=
    interpretLoop_go 92 (⟨(((List.replicate (32767 + 1) (0 : Int)).set 0 1).set 1 2).set 1 1, [',', '>', ',', '<', '>', '[', '-', '<', '+', '>', ']', '<', '.'], 1, 7, 0⟩ : BFI) (⟨(((List.replicate (32767 + 1) (0 : Int)).set 0 1).set 1 2).set 1 1, [',', '>', ',', '<', '>', '[', '-', '<', '+', '>', ']', '<', '.'], 0, 7, 0⟩ : BFI) (⟨(((List.replicate (32767 + 1) (0 : Int)).set 0 1).set 1 2).set 1 1, [',', '>', ',', '<', '>', '[', '-', '<', '+', '>', ']', '<', '.'], 0, 8, 0⟩ : BFI) [] [] [] [] (by decide) rfl rfl
  have h9 : interpretLoop 92 (⟨(((List.replicate (32767 + 1) (0 : Int)).set 0 1).set 1 2).set 1 1, [',', '>', ',', '<', '>', '[', '-', '<', '+', '>', ']', '<', '.'], 0, 8, 0⟩ : BFI) [] [] =
      interpretLoop 91 (⟨((((List.replicate (32767 + 1) (0 : Int)).set 0 1).set 1 2).set 1 1).set 0 2, [',', '>', ',', '<', '>', '[', '-', '<', '+', '>', ']', '<', '.'], 0, 9, 0⟩ : BFI) [] [] :=
    interpretLoop_go 91 (⟨(((List.replicate (32767 + 1) (0 : Int)).set 0 1).set 1 2).set 1 1, [',', '>', ',', '<', '>', '[', '-', '<', '+', '>', ']', '<', '.'], 0, 8, 0⟩ : BFI) (⟨((((List.replicate (32767 + 1) (0 : Int)).set 0 1).set 1 2).set 1 1).set 0 2, [',', '>', ',', '<', '>', '[', '-', '<', '+', '>', ']', '<', '.'], 0, 8, 0⟩ : BFI) (⟨((((List.replicate (32767 + 1) (0 : Int)).set 0 1).set 1 2).set 1 1).set 0 2, [',', '>', ',', '<', '>', '[', '-', '<', '+', '>', ']', '<', '.'], 0, 9, 0⟩ : BFI) [] [] [] [] (by decide) rfl rfl
  have h10 : interpretLoop 91 (⟨((((List.replicate (32767 + 1) (0 : Int)).set 0 1).set 1 2).set 1 1).set 0 2, [',', '>', ',', '<', '>', '[', '-', '<', '+', '>', ']', '<', '.'], 0, 9, 0⟩ : BFI) [] [] =
      interpretLoop 90 (⟨((((List.replicate (32767 + 1) (0 : Int)).set 0 1).set 1 2).set 1 1).set 0 2, [',', '>', ',', '<', '>', '[', '-', '<', '+', '>', ']', '<', '.'], 1, 10, 0⟩ : BFI) [] [] :=
    interpretLoop_go 90 (⟨((((List.replicate (32767 + 1) (0 : Int)).set 0 1).set 1 2).set 1 1).set 0 2, [',', '>', ',', '<', '>', '[', '-', '<', '+', '>', ']', '<', '.'], 0, 9, 0⟩ : BFI) (⟨((((List.replicate (32767 + 1) (0 : Int)).set 0 1).set 1 2).set 1 1).set 0 2, [',', '>', ',', '<', '>', '[', '-', '<', '+', '>', ']', '<', '.'], 1, 9, 0⟩ : BFI) (⟨((((List.replicate (32767 + 1) (0 : Int)).set 0 1).set 1 2).set 1 1).set 0 2, [',', '>', ',', '<', '>', '[', '-', '<', '+', '>', ']', '<', '.'], 1, 10, 0⟩ : BFI) [] [] [] [] (by decide) (dispatch_gt 90 (⟨((((List.replicate (32767 + 1) (0 : Int)).set 0 1).set 1 2).set 1 1).set 0 2, [',', '>', ',', '<', '>', '[', '-', '<', '+', '>', ']', '<', '.'], 0, 9, 0⟩ : BFI) (⟨((((List.replicate (32767 + 1) (0 : Int)).set 0 1).set 1 2).set 1 1).set 0 2, [',', '>', ',', '<', '>', '[', '-', '<', '+', '>', ']', '<', '.'], 1, 9, 0⟩ : BFI) [] [] rfl (by simp only [List.length_set, List.length_replicate]; omega) rfl) rfl
  have h11 : interpretLoop 90 (⟨((((List.replicate (32767 + 1) (0 : Int)).set 0 1).set 1 2).set 1 1).set 0 2, [',', '>', ',', '<', '>', '[', '-', '<', '+', '>', ']', '<', '.'], 1, 10, 0⟩ : BFI) [] [] =
      interpretLoop 89 (⟨((((List.replicate (32767 + 1) (0 : Int)).set 0 1).set 1 2).set 1 1).set 0 2, [',', '>', ',', '<', '>', '[', '-', '<', '+', '>', ']', '<', '.'], 1, 5, 0⟩ : BFI) [] [] :=
    interpretLoop_go 89 (⟨((((List.replicate (32767 + 1) (0 : Int)).set 0 1).set 1 2).set 1 1).set 0 2, [',', '>', ',', '<', '>', '[', '-', '<', '+', '>', ']', '<', '.'], 1, 10, 0⟩ : BFI) (⟨((((List.replicate (32767 + 1) (0 : Int)).set 0 1).set 1 2).set 1 1).set 0 2, [',', '>', ',', '<', '>', '[', '-', '<', '+', '>', ']', '<', '.'], 1, 4, 0⟩ : BFI) (⟨((((List.replicate (32767 + 1) (0 : Int)).set 0 1).set 1 2).set 1 1).set 0 2, [',', '>', ',', '<', '>', '[', '-', '<', '+', '>', ']', '<', '.'], 1, 5, 0⟩ : BFI) [] [] [] [] (by decide) rfl rfl
  have h12 : interpretLoop 89 (⟨((((List.replicate (32767 + 1) (0 : Int)).set 0 1).set 1 2).set 1 1).set 0 2, [',', '>', ',', '<', '>', '[', '-', '<', '+', '>', ']', '<', '.'], 1, 5, 0⟩ : BFI) [] [] =
      interpretLoop 88 (⟨((((List.replicate (32767 + 1) (0 : Int)).set 0 1).set 1 2).set 1 1).set 0 2, [',', '>', ',', '<', '>', '[', '-', '<', '+', '>', ']', '<', '.'], 1, 6, 0⟩ : BFI) [] [] :=
    interpretLoop_go 88 (⟨((((List.replicate (32767 + 1) (0 : Int)).set 0 1).set 1 2).set 1 1).set 0 2, [',', '>', ',', '<', '>', '[', '-', '<', '+', '>', ']', '<', '.'], 1, 5, 0⟩ : BFI) (⟨((((List.replicate (32767 + 1) (0 : Int)).set 0 1).set 1 2).set 1 1).set 0 2, [',', '>', ',', '<', '>', '[', '-', '<', '+', '>', ']', '<', '.'], 1, 5, 0⟩ : BFI) (⟨((((List.replicate (32767 + 1) (0 : Int)).set 0 1).set 1 2).set 1 1).set 0 2, [',', '>', ',', '<', '>', '[', '-', '<', '+', '>', ']', '<', '.'], 1, 6, 0⟩ : BFI) [] [] [] [] (by decide) rfl rfl
  have h13 : interpretLoop 88 (⟨((((List.replicate (32767 + 1) (0 : Int)).set 0 1).set 1 2).set 1 1).set 0 2, [',', '>', ',', '<', '>', '[', '-', '<', '+', '>', ']', '<', '.'], 1, 6, 0⟩ : BFI) [] [] =
      interpretLoop 87 (⟨(((((List.replicate (32767 + 1) (0 : Int)).set 0 1).set 1 2).set 1 1).set 0 2).set 1 0, [',', '>', ',', '<', '>', '[', '-', '<', '+', '>', ']', '<', '.'], 1, 7, 0⟩ : BFI) [] [] :=
    interpretLoop_go 87 (⟨((((List.replicate (32767 + 1) (0 : Int)).set 0 1).set 1 2).set 1 1).set 0 2, [',', '>', ',', '<', '>', '[', '-', '<', '+', '>', ']', '<', '.'], 1, 6, 0⟩ : BFI) (⟨(((((List.replicate (32767 + 1) (0 : Int)).set 0 1).set 1 2).set 1 1).set 0 2).set 1 0, [',', '>', ',', '<', '>', '[', '-', '<', '+', '>', ']', '<', '.'], 1, 6, 0⟩ : BFI) (⟨(((((List.replicate (32767 + 1) (0 : Int)).set 0 1).set 1 2).set 1 1).set 0 2).set 1 0, [',', '>', ',', '<', '>', '[', '-', '<', '+', '>', ']', '<', '.'], 1, 7, 0⟩ : BFI) [] [] [] [] (by decide) rfl rfl
  have h14 : interpretLoop 87 (⟨(((((List.replicate (32767 + 1) (0 : Int)).set 0 1).set 1 2).set 1 1).set 0 2).set 1 0, [',', '>', ',', '<', '>', '[', '-', '<', '+', '>', ']', '<', '.'], 1, 7, 0⟩ : BFI) [] [] =
      interpretLoop 86 (⟨(((((List.replicate (32767 + 1) (0 : Int)).set 0 1).set 1 2).set 1 1).set 0 2).set 1 0, [',', '>', ',', '<', '>', '[', '-', '<', '+', '>', ']', '<', '.'], 0, 8, 0⟩ : BFI) [] [] :=
    interpretLoop_go 86 (⟨(((((List.replicate (32767 + 1) (0 : Int)).set 0 1).set 1 2).set 1 1).set 0 2).set 1 0, [',', '>', ',', '<', '>', '[', '-', '<', '+', '>', ']', '<', '.'], 1, 7, 0⟩ : BFI) (⟨(((((List.replicate (32767 + 1) (0 : Int)).set 0 1).set 1 2).set 1 1).set 0 2).set 1 0, [',', '>', ',', '<', '>', '[', '-', '<', '+', '>', ']', '<', '.'], 0, 7, 0⟩ : BFI) (⟨(((((List.replicate (32767 + 1) (0 : Int)).set 0 1).set 1 2).set 1 1).set 0 2).set 1 0, [',', '>', ',', '<', '>', '[', '-', '<', '+', '>', ']', '<', '.'], 0, 8, 0⟩ : BFI) [] [] [] [] (by decide) rfl rfl
  have h15 : interpretLoop 86 (⟨(((((List.replicate (32767 + 1) (0 : Int)).set 0 1).set 1 2).set 1 1).set 0 2).set 1 0, [',', '>', ',', '<', '>', '[', '-', '<', '+', '>', ']', '<', '.'], 0, 8, 0⟩ : BFI) [] [] =
      interpretLoop 85 (⟨((((((List.replicate (32767 + 1) (0 : Int)).set 0 1).set 1 2).set 1 1).set 0 2).set 1 0).set 0 3, [',', '>', ',', '<', '>', '[', '-', '<', '+', '>', ']', '<', '.'], 0, 9, 0⟩ : BFI) [] [] :=
    interpretLoop_go 85 (⟨(((((List.replicate (32767 + 1) (0 : Int)).set 0 1).set 1 2).set 1 1).set 0 2).set 1 0, [',', '>', ',', '<', '>', '[', '-', '<', '+', '>', ']', '<', '.'], 0, 8, 0⟩ : BFI) (⟨((((((List.replicate (32767 + 1) (0 : Int)).set 0 1).set 1 2).set 1 1).set 0 2).set 1 0).set 0 3, [',', '>', ',', '<', '>', '[', '-', '<', '+', '>', ']', '<', '.'], 0, 8, 0⟩ : BFI) (⟨((((((List.replicate (32767 + 1) (0 : Int)).set 0 1).set 1 2).set 1 1).set 0 2).set 1 0).set 0 3, [',', '>', ',', '<', '>', '[', '-', '<', '+', '>', ']', '<', '.'], 0, 9, 0⟩ : BFI) [] [] [] [] (by decide) rfl rfl
  have h16 : interpretLoop 85 (⟨((((((List.replicate (32767 + 1) (0 : Int)).set 0 1).set 1 2).set 1 1).set 0 2).set 1 0).set 0 3, [',', '>', ',', '<', '>', '[', '-', '<', '+', '>', ']', '<', '.'], 0, 9, 0⟩ : BFI) [] [] =
      interpretLoop 84 (⟨((((((List.replicate (32767 + 1) (0 : Int)).set 0 1).set 1 2).set 1 1).set 0 2).set 1 0).set 0 3, [',', '>', ',', '<', '>', '[', '-', '<', '+', '>', ']', '<', '.'], 1, 10, 0⟩ : BFI) [] [] :=
    interpretLoop_go 84 (⟨((((((List.replicate (32767 + 1) (0 : Int)).set 0 1).set 1 2).set 1 1).set 0 2).set 1 0).set 0 3, [',', '>', ',', '<', '>', '[', '-', '<', '+', '>', ']', '<', '.'], 0, 9, 0⟩ : BFI) (⟨((((((List.replicate (32767 + 1) (0 : Int)).set 0 1).set 1 2).set 1 1).set 0 2).set 1 0).set 0 3, [',', '>', ',', '<', '>', '[', '-', '<', '+', '>', ']', '<', '.'], 1, 9, 0⟩ : BFI) (⟨((((((List.replicate (32767 + 1) (0 : Int)).set 0 1).set 1 2).set 1 1).set 0 2).set 1 0).set 0 3, [',', '>', ',', '<', '>', '[', '-', '<', '+', '>', ']', '<', '.'], 1, 10, 0⟩ : BFI) [] [] [] [] (by decide) (dispatch_gt 84 (⟨((((((List.replicate (32767 + 1) (0 : Int)).set 0 1).set 1 2).set 1 1).set 0 2).set 1 0).set 0 3, [',', '>', ',', '<', '>', '[', '-', '<', '+', '>', ']', '<', '.'], 0, 9, 0⟩ : BFI) (⟨((((((List.replicate (32767 + 1) (0 : Int)).set 0 1).set 1 2).set 1 1).set 0 2).set 1 0).set 0 3, [',', '>', ',', '<', '>', '[', '-', '<', '+', '>', ']', '<', '.'], 1, 9, 0⟩ : BFI) [] [] rfl (by simp only [List.length_set, List.length_replicate]; omega) rfl) rfl
  have h17 : interpretLoop 84 (⟨((((((List.replicate (32767 + 1) (0 : Int)).set 0 1).set 1 2).set 1 1).set 0 2).set 1 0).set 0 3, [',', '>', ',', '<', '>', '[', '-', '<', '+', '>', ']', '<', '.'], 1, 10, 0⟩ : BFI) [] [] =
      interpretLoop 83 (⟨((((((List.replicate (32767 + 1) (0 : Int)).set 0 1).set 1 2).set 1 1).set 0 2).set 1 0).set 0 3, [',', '>', ',', '<', '>', '[', '-', '<', '+', '>', ']', '<', '.'], 1, 5, 0⟩ : BFI) [] [] :=
    interpretLoop_go 83 (⟨((((((List.replicate (32767 + 1) (0 : Int)).set 0 1).set 1 2).set 1 1).set 0 2).set 1 0).set 0 3, [',', '>', ',', '<', '>', '[', '-', '<', '+', '>', ']', '<', '.'], 1, 10, 0⟩ : BFI) (⟨((((((List.replicate (32767 + 1) (0 : Int)).set 0 1).set 1 2).set 1 1).set 0 2).set 1 0).set 0 3, [',', '>', ',', '<', '>', '[', '-', '<', '+', '>', ']', '<', '.'], 1, 4, 0⟩ : BFI) (⟨((((((List.replicate (32767 + 1) (0 : Int)).set 0 1).set 1 2).set 1 1).set 0 2).set 1 0).set 0 3, [',', '>', ',', '<', '>', '[', '-', '<', '+', '>', ']', '<', '.'], 1, 5, 0⟩ : BFI) [] [] [] [] (by decide) rfl rfl
  have h18 : interpretLoop 83 (⟨((((((List.replicate (32767 + 1) (0 : Int)).set 0 1).set 1 2).set 1 1).set 0 2).set 1 0).set 0 3, [',', '>', ',', '<', '>', '[', '-', '<', '+', '>', ']', '<', '.'], 1, 5, 0⟩ : BFI) [] [] =
      interpretLoop 82 (⟨((((((List.replicate (32767 + 1) (0 : Int)).set 0 1).set 1 2).set 1 1).set 0 2).set 1 0).set 0 3, [',', '>', ',', '<', '>', '[', '-', '<', '+', '>', ']', '<', '.'], 1, 11, 0⟩ : BFI) [] [] :=
    interpretLoop_go 82 (⟨((((((List.replicate (32767 + 1) (0 : Int)).set 0 1).set 1 2).set 1 1).set 0 2).set 1 0).set 0 3, [',', '>', ',', '<', '>', '[', '-', '<', '+', '>', ']', '<', '.'], 1, 5, 0⟩ : BFI) (⟨((((((List.replicate (32767 + 1) (0 : Int)).set 0 1).set 1 2).set 1 1).set 0 2).set 1 0).set 0 3, [',', '>', ',', '<', '>', '[', '-', '<', '+', '>', ']', '<', '.'], 1, 10, 0⟩ : BFI) (⟨((((((List.replicate (32767 + 1) (0 : Int)).set 0 1).set 1 2).set 1 1).set 0 2).set 1 0).set 0 3, [',', '>', ',', '<', '>', '[', '-', '<', '+', '>', ']', '<', '.'], 1, 11, 0⟩ : BFI) [] [] [] [] (by decide) rfl rfl
  have h19 : interpretLoop 82 (⟨((((((List.replicate (32767 + 1) (0 : Int)).set 0 1).set 1 2).set 1 1).set 0 2).set 1 0).set 0 3, [',', '>', ',', '<', '>', '[', '-', '<', '+', '>', ']', '<', '.'], 1, 11, 0⟩ : BFI) [] [] =
      interpretLoop 81 (⟨((((((List.replicate (32767 + 1) (0 : Int)).set 0 1).set 1 2).set 1 1).set 0 2).set 1 0).set 0 3, [',', '>', ',', '<', '>', '[', '-', '<', '+', '>', ']', '<', '.'], 0, 12, 0⟩ : BFI) [] [] :=
    interpretLoop_go 81 (⟨((((((List.replicate (32767 + 1) (0 : Int)).set 0 1).set 1 2).set 1 1).set 0 2).set 1 0).set 0 3, [',', '>', ',', '<', '>', '[', '-', '<', '+', '>', ']', '<', '.'], 1, 11, 0⟩ : BFI) (⟨((((((List.replicate (32767 + 1) (0 : Int)).set 0 1).set 1 2).set 1 1).set 0 2).set 1 0).set 0 3, [',', '>', ',', '<', '>', '[', '-', '<', '+', '>', ']', '<', '.'], 0, 11, 0⟩ : BFI) (⟨((((((List.replicate (32767 + 1) (0 : Int)).set 0 1).set 1 2).set 1 1).set 0 2).set 1 0).set 0 3, [',', '>', ',', '<', '>', '[', '-', '<', '+', '>', ']', '<', '.'], 0, 12, 0⟩ : BFI) [] [] [] [] (by decide) rfl rfl
  have h20 : interpretLoop 81 (⟨((((((List.replicate (32767 + 1) (0 : Int)).set 0 1).set 1 2).set 1 1).set 0 2).set 1 0).set 0 3, [',', '>', ',', '<', '>', '[', '-', '<', '+', '>', ']', '<', '.'], 0, 12, 0⟩ : BFI) [] [] =
      interpretLoop 80 (⟨((((((List.replicate (32767 + 1) (0 : Int)).set 0 1).set 1 2).set 1 1).set 0 2).set 1 0).set 0 3, [',', '>', ',', '<', '>', '[', '-', '<', '+', '>', ']', '<', '.'], 0, 13, 0⟩ : BFI) [] [3] :=
    interpretLoop_go 80 (⟨((((((List.replicate (32767 + 1) (0 : Int)).set 0 1).set 1 2).set 1 1).set 0 2).set 1 0).set 0 3, [',', '>', ',', '<', '>', '[', '-', '<', '+', '>', ']', '<', '.'], 0, 12, 0⟩ : BFI) (⟨((((((List.replicate (32767 + 1) (0 : Int)).set 0 1).set 1 2).set 1 1).set 0 2).set 1 0).set 0 3, [',', '>', ',', '<', '>', '[', '-', '<', '+', '>', ']', '<', '.'], 0, 12, 0⟩ : BFI) (⟨((((((List.replicate (32767 + 1) (0 : Int)).set 0 1).set 1 2).set 1 1).set 0 2).set 1 0).set 0 3, [',', '>', ',', '<', '>', '[', '-', '<', '+', '>', ']', '<', '.'], 0, 13, 0⟩ : BFI) [] [] [] [3] (by decide) rfl rfl
  have hdone : interpretLoop 80 (⟨((((((List.replicate (32767 + 1) (0 : Int)).set 0 1).set 1 2).set 1 1).set 0 2).set 1 0).set 0 3, [',', '>', ',', '<', '>', '[', '-', '<', '+', '>', ']', '<', '.'], 0, 13, 0⟩ : BFI) [] [3] = some ((⟨((((((List.replicate (32767 + 1) (0 : Int)).set 0 1).set 1 2).set 1 1).set 0 2).set 1 0).set 0 3, [',', '>', ',', '<', '>', '[', '-', '<', '+', '>', ']', '<', '.'], 0, 13, 0⟩ : BFI), [], [3], none) :=
    interpretLoop_done 79 (⟨((((((List.replicate (32767 + 1) (0 : Int)).set 0 1).set 1 2).set 1 1).set 0 2).set 1 0).set 0 3, [',', '>', ',', '<', '>', '[', '-', '<', '+', '>', ']', '<', '.'], 0, 13, 0⟩ : BFI) [] [3] (by decide)
  show (interpret 100 (mkBFI [',', '>', ',', '<', '>', '[', '-', '<', '+', '>', ']', '<', '.']) [1, 2] []).map
      (fun r => (r.2.2.1, r.2.2.2)) = some ([3], none)
  rw [h0, h1, h2, h3, h4, h5, h6, h7, h8, h9, h10, h11, h12, h13, h14, h15, h16, h17, h18, h19, h20, hdone]
  rfl
